import Mathlib

/-!
Verification model of `indices_example.py`: a straight-line pipeline that
prompts for an input folder and an output file, loads all `*.nc` files,
resamples to daily means, computes twenty xclim indicators into an output
dataset seeded with the input's global attributes, and writes the result.

The external libraries (xarray, xclim) are modelled abstractly: an `Env`
bundles the loader, the per-variable daily resampler and an `XClimLib` of
indicator functions over an arbitrary value type `V`.  The pipeline
`do_generate_indices` is a line-by-line translation of the script body and
also records an event trace (loads, indicator calls with their arguments
and parameters, insertions, the final write).  A free syntactic instance
(`freeEnv` over `Expr`) makes dataflow wiring decidable.
-/

namespace XclimIndices

/-- A named array, as returned by every xclim indicator (`da` in the script);
`name` is the indicator-chosen output variable name, `data` its values. -/
structure DataArray (V : Type) where
  name : String
  data : V
deriving DecidableEq

/-- The loaded input dataset as the script uses it: global attributes plus
the three variables `pr`, `tasmax`, `tasmin` (whose existence the script
assumes). -/
structure InDataset (V : Type) where
  attrs : List (String × String)
  pr : V
  tasmax : V
  tasmin : V
deriving DecidableEq

/-- The output dataset: global attributes and a partial map from variable
names to values (`ds_out` in the script, built by `ds_out[da.name] = da`). -/
structure OutDataset (V : Type) where
  attrs : List (String × String)
  vars : String → Option V

/-- `ds_out[da.name] = da`: insert (or overwrite) a variable under the name
carried by the result array.  Global attributes are untouched. -/
def OutDataset.setVar {V : Type} (ds : OutDataset V) (da : DataArray V) : OutDataset V :=
  { ds with vars := fun m => if m = da.name then some da.data else ds.vars m }

/-- The xclim indicator functions the script calls, over an abstract value
type `V`.  Each signature mirrors the arguments the script passes
(data arguments, threshold string, window, resampling frequency). -/
structure XClimLib (V : Type) where
  wetdays : V → String → String → DataArray V
  maximum_consecutive_dry_days : V → String → String → DataArray V
  maximum_consecutive_wet_days : V → String → String → DataArray V
  precip_accumulation : V → String → DataArray V
  daily_pr_intensity : V → String → String → DataArray V
  max_1day_precipitation_amount : V → String → DataArray V
  max_n_day_precipitation_amount : V → Nat → String → DataArray V
  tx_max : V → String → DataArray V
  tn_max : V → String → DataArray V
  tx_min : V → String → DataArray V
  tn_min : V → String → DataArray V
  frost_days : V → String → DataArray V
  ice_days : V → String → DataArray V
  tx_days_above : V → String → String → DataArray V
  tropical_nights : V → String → String → DataArray V
  tas : V → V → V
  percentile_doy : V → Nat → V
  tx10p : V → V → String → DataArray V
  tx90p : V → V → String → DataArray V
  tn10p : V → V → String → DataArray V
  tn90p : V → V → String → DataArray V
  cold_spell_duration_index : V → V → Nat → String → DataArray V

/-- The external environment of one run: the indicator library, the
multi-file loader (`xr.open_mfdataset`, a function of the glob pattern)
and the per-variable daily-mean resampler. -/
structure Env (V : Type) where
  lib : XClimLib V
  open_mfdataset : String → InDataset V
  resample_daily_mean : V → V

/-- `ds.resample(time='D').mean(keep_attrs=True)`: the resampler is applied
to every variable; `keep_attrs=True` keeps the dataset attributes. -/
def resampleDs {V : Type} (r : V → V) (ds : InDataset V) : InDataset V :=
  { ds with pr := r ds.pr, tasmax := r ds.tasmax, tasmin := r ds.tasmin }

/-- Observable events of one run: dataset load (with the glob pattern it
was given), the daily resample, the two intermediate-series computations
(`xc.indices.tas`, `percentile_doy`), each indicator call with its data
arguments and parameters, each insertion into `ds_out`, and the final
`to_netcdf` write. -/
inductive Event (V : Type) where
  | load : String → Event V
  | resample : Event V
  | tasCall : V → V → Event V
  | pdoyCall : V → Nat → Event V
  | indCall : String → List V → Option String → Option Nat → String → Event V
  | insert : String → Event V
  | write : String → Event V
deriving DecidableEq

/-- Line-by-line translation of `do_generate_indices` in
`indices_example.py`.  The dialog results are the strings returned by
`utils.get_folder_path` / `utils.get_save_path`; the Python truthiness
test `if not fldr_in` on a string is emptiness.  Returns the outcome
(the output dataset handed to the writer, or the abort error) together
with the event trace of the run. -/
def do_generate_indices {V : Type} (env : Env V) (folderSel fileSel : String) :
    Except String (OutDataset V) × List (Event V) :=
  if folderSel.isEmpty then (Except.error "Folder selection aborted", []) else
  let fldr_in := folderSel ++ "*.nc"
  if fileSel.isEmpty then (Except.error "Save file selection aborted", []) else
  let file_out := fileSel
  let ds := env.open_mfdataset fldr_in
  let ds := resampleDs env.resample_daily_mean ds
  let tr : List (Event V) := [Event.load fldr_in, Event.resample]
  let ds_out : OutDataset V := { attrs := ds.attrs, vars := fun _ => none }
  -- R1mm
  let da := env.lib.wetdays ds.pr "1 mm/day" "YS"
  let tr := tr ++ [Event.indCall "wetdays" [ds.pr] (some "1 mm/day") none "YS", Event.insert da.name]
  let ds_out := ds_out.setVar da
  -- CDD
  let da := env.lib.maximum_consecutive_dry_days ds.pr "1 mm/day" "YS"
  let tr := tr ++ [Event.indCall "maximum_consecutive_dry_days" [ds.pr] (some "1 mm/day") none "YS", Event.insert da.name]
  let ds_out := ds_out.setVar da
  -- CWD
  let da := env.lib.maximum_consecutive_wet_days ds.pr "1 mm/day" "YS"
  let tr := tr ++ [Event.indCall "maximum_consecutive_wet_days" [ds.pr] (some "1 mm/day") none "YS", Event.insert da.name]
  let ds_out := ds_out.setVar da
  -- PRCPTOT
  let da := env.lib.precip_accumulation ds.pr "YS"
  let tr := tr ++ [Event.indCall "precip_accumulation" [ds.pr] none none "YS", Event.insert da.name]
  let ds_out := ds_out.setVar da
  -- SDII
  let da := env.lib.daily_pr_intensity ds.pr "1 mm/day" "YS"
  let tr := tr ++ [Event.indCall "daily_pr_intensity" [ds.pr] (some "1 mm/day") none "YS", Event.insert da.name]
  let ds_out := ds_out.setVar da
  -- RX1day
  let da := env.lib.max_1day_precipitation_amount ds.pr "YS"
  let tr := tr ++ [Event.indCall "max_1day_precipitation_amount" [ds.pr] none none "YS", Event.insert da.name]
  let ds_out := ds_out.setVar da
  -- RX5day
  let da := env.lib.max_n_day_precipitation_amount ds.pr 5 "YS"
  let tr := tr ++ [Event.indCall "max_n_day_precipitation_amount" [ds.pr] none (some 5) "YS", Event.insert da.name]
  let ds_out := ds_out.setVar da
  -- TXx
  let da := env.lib.tx_max ds.tasmax "YS"
  let tr := tr ++ [Event.indCall "tx_max" [ds.tasmax] none none "YS", Event.insert da.name]
  let ds_out := ds_out.setVar da
  -- TNx
  let da := env.lib.tn_max ds.tasmin "YS"
  let tr := tr ++ [Event.indCall "tn_max" [ds.tasmin] none none "YS", Event.insert da.name]
  let ds_out := ds_out.setVar da
  -- TXn
  let da := env.lib.tx_min ds.tasmax "YS"
  let tr := tr ++ [Event.indCall "tx_min" [ds.tasmax] none none "YS", Event.insert da.name]
  let ds_out := ds_out.setVar da
  -- TNn
  let da := env.lib.tn_min ds.tasmin "YS"
  let tr := tr ++ [Event.indCall "tn_min" [ds.tasmin] none none "YS", Event.insert da.name]
  let ds_out := ds_out.setVar da
  -- FD
  let da := env.lib.frost_days ds.tasmin "YS"
  let tr := tr ++ [Event.indCall "frost_days" [ds.tasmin] none none "YS", Event.insert da.name]
  let ds_out := ds_out.setVar da
  -- ID
  let da := env.lib.ice_days ds.tasmax "YS"
  let tr := tr ++ [Event.indCall "ice_days" [ds.tasmax] none none "YS", Event.insert da.name]
  let ds_out := ds_out.setVar da
  -- SU
  let da := env.lib.tx_days_above ds.tasmax "25 degC" "YS"
  let tr := tr ++ [Event.indCall "tx_days_above" [ds.tasmax] (some "25 degC") none "YS", Event.insert da.name]
  let ds_out := ds_out.setVar da
  -- TR
  let da := env.lib.tropical_nights ds.tasmin "20 degC" "YS"
  let tr := tr ++ [Event.indCall "tropical_nights" [ds.tasmin] (some "20 degC") none "YS", Event.insert da.name]
  let ds_out := ds_out.setVar da
  -- Local DataArrays (not part of Dataset) to be used below
  let tas := env.lib.tas ds.tasmin ds.tasmax
  let tr := tr ++ [Event.tasCall ds.tasmin ds.tasmax]
  let t10 := env.lib.percentile_doy tas 10
  let tr := tr ++ [Event.pdoyCall tas 10]
  let t90 := env.lib.percentile_doy tas 90
  let tr := tr ++ [Event.pdoyCall tas 90]
  let tn10 := env.lib.percentile_doy ds.tasmin 10
  let tr := tr ++ [Event.pdoyCall ds.tasmin 10]
  -- TX10p
  let da := env.lib.tx10p ds.tasmax t10 "YS"
  let tr := tr ++ [Event.indCall "tx10p" [ds.tasmax, t10] none none "YS", Event.insert da.name]
  let ds_out := ds_out.setVar da
  -- TX90p
  let da := env.lib.tx90p ds.tasmax t90 "YS"
  let tr := tr ++ [Event.indCall "tx90p" [ds.tasmax, t90] none none "YS", Event.insert da.name]
  let ds_out := ds_out.setVar da
  -- TN10p
  let da := env.lib.tn10p ds.tasmin t10 "YS"
  let tr := tr ++ [Event.indCall "tn10p" [ds.tasmin, t10] none none "YS", Event.insert da.name]
  let ds_out := ds_out.setVar da
  -- TN90p
  let da := env.lib.tn90p ds.tasmin t90 "YS"
  let tr := tr ++ [Event.indCall "tn90p" [ds.tasmin, t90] none none "YS", Event.insert da.name]
  let ds_out := ds_out.setVar da
  -- CSDI
  let da := env.lib.cold_spell_duration_index ds.tasmin tn10 1 "YS"
  let tr := tr ++ [Event.indCall "cold_spell_duration_index" [ds.tasmin, tn10] none (some 1) "YS", Event.insert da.name]
  let ds_out := ds_out.setVar da
  let tr := tr ++ [Event.write file_out]
  (Except.ok ds_out, tr)

/-- The dataset loaded for folder selection `fldr`: the glob pattern handed
to the loader is the folder string with `*.nc` appended verbatim
(`fldr_in += r'*.nc'`). -/
def loadedDs {V : Type} (env : Env V) (fldr : String) : InDataset V :=
  env.open_mfdataset (fldr ++ "*.nc")

/-- The loaded dataset after the daily-mean resample. -/
def dsDaily {V : Type} (env : Env V) (fldr : String) : InDataset V :=
  resampleDs env.resample_daily_mean (loadedDs env fldr)

/-- The twenty indicator result arrays of the run, in program order, as
functions of the (resampled) input dataset.  The intermediate series
`tas`, `t10`, `t90`, `tn10` are bound once and reused, as in the script. -/
def indicatorResults {V : Type} (lib : XClimLib V) (ds : InDataset V) : List (DataArray V) :=
  let tas := lib.tas ds.tasmin ds.tasmax
  let t10 := lib.percentile_doy tas 10
  let t90 := lib.percentile_doy tas 90
  let tn10 := lib.percentile_doy ds.tasmin 10
  [lib.wetdays ds.pr "1 mm/day" "YS",
   lib.maximum_consecutive_dry_days ds.pr "1 mm/day" "YS",
   lib.maximum_consecutive_wet_days ds.pr "1 mm/day" "YS",
   lib.precip_accumulation ds.pr "YS",
   lib.daily_pr_intensity ds.pr "1 mm/day" "YS",
   lib.max_1day_precipitation_amount ds.pr "YS",
   lib.max_n_day_precipitation_amount ds.pr 5 "YS",
   lib.tx_max ds.tasmax "YS",
   lib.tn_max ds.tasmin "YS",
   lib.tx_min ds.tasmax "YS",
   lib.tn_min ds.tasmin "YS",
   lib.frost_days ds.tasmin "YS",
   lib.ice_days ds.tasmax "YS",
   lib.tx_days_above ds.tasmax "25 degC" "YS",
   lib.tropical_nights ds.tasmin "20 degC" "YS",
   lib.tx10p ds.tasmax t10 "YS",
   lib.tx90p ds.tasmax t90 "YS",
   lib.tn10p ds.tasmin t10 "YS",
   lib.tn90p ds.tasmin t90 "YS",
   lib.cold_spell_duration_index ds.tasmin tn10 1 "YS"]

/-- The output variable names of the run: the name carried by each of the
twenty indicator result arrays, in program order. -/
def resultNames {V : Type} (lib : XClimLib V) (ds : InDataset V) : List String :=
  (indicatorResults lib ds).map DataArray.name

/-- The empty output dataset seeded with the given global attributes
(`ds_out = xr.Dataset(attrs=ds.attrs)`). -/
def seedOut {V : Type} (a : List (String × String)) : OutDataset V :=
  { attrs := a, vars := fun _ => none }

/-- Insert a list of result arrays into an output dataset, in order. -/
def applyAll {V : Type} (ds : OutDataset V) (l : List (DataArray V)) : OutDataset V :=
  l.foldl OutDataset.setVar ds

/-- The output dataset a successful run hands to the writer. -/
def successOut {V : Type} (env : Env V) (fldr : String) : OutDataset V :=
  applyAll (seedOut (dsDaily env fldr).attrs) (indicatorResults env.lib (dsDaily env fldr))

/-- The event trace of a successful run, flattened. -/
def successTrace {V : Type} (env : Env V) (fldr fileOut : String) : List (Event V) :=
  let ds := dsDaily env fldr
  let lib := env.lib
  let tas := lib.tas ds.tasmin ds.tasmax
  let t10 := lib.percentile_doy tas 10
  let t90 := lib.percentile_doy tas 90
  let tn10 := lib.percentile_doy ds.tasmin 10
  [Event.load (fldr ++ "*.nc"), Event.resample,
   Event.indCall "wetdays" [ds.pr] (some "1 mm/day") none "YS",
   Event.insert (lib.wetdays ds.pr "1 mm/day" "YS").name,
   Event.indCall "maximum_consecutive_dry_days" [ds.pr] (some "1 mm/day") none "YS",
   Event.insert (lib.maximum_consecutive_dry_days ds.pr "1 mm/day" "YS").name,
   Event.indCall "maximum_consecutive_wet_days" [ds.pr] (some "1 mm/day") none "YS",
   Event.insert (lib.maximum_consecutive_wet_days ds.pr "1 mm/day" "YS").name,
   Event.indCall "precip_accumulation" [ds.pr] none none "YS",
   Event.insert (lib.precip_accumulation ds.pr "YS").name,
   Event.indCall "daily_pr_intensity" [ds.pr] (some "1 mm/day") none "YS",
   Event.insert (lib.daily_pr_intensity ds.pr "1 mm/day" "YS").name,
   Event.indCall "max_1day_precipitation_amount" [ds.pr] none none "YS",
   Event.insert (lib.max_1day_precipitation_amount ds.pr "YS").name,
   Event.indCall "max_n_day_precipitation_amount" [ds.pr] none (some 5) "YS",
   Event.insert (lib.max_n_day_precipitation_amount ds.pr 5 "YS").name,
   Event.indCall "tx_max" [ds.tasmax] none none "YS",
   Event.insert (lib.tx_max ds.tasmax "YS").name,
   Event.indCall "tn_max" [ds.tasmin] none none "YS",
   Event.insert (lib.tn_max ds.tasmin "YS").name,
   Event.indCall "tx_min" [ds.tasmax] none none "YS",
   Event.insert (lib.tx_min ds.tasmax "YS").name,
   Event.indCall "tn_min" [ds.tasmin] none none "YS",
   Event.insert (lib.tn_min ds.tasmin "YS").name,
   Event.indCall "frost_days" [ds.tasmin] none none "YS",
   Event.insert (lib.frost_days ds.tasmin "YS").name,
   Event.indCall "ice_days" [ds.tasmax] none none "YS",
   Event.insert (lib.ice_days ds.tasmax "YS").name,
   Event.indCall "tx_days_above" [ds.tasmax] (some "25 degC") none "YS",
   Event.insert (lib.tx_days_above ds.tasmax "25 degC" "YS").name,
   Event.indCall "tropical_nights" [ds.tasmin] (some "20 degC") none "YS",
   Event.insert (lib.tropical_nights ds.tasmin "20 degC" "YS").name,
   Event.tasCall ds.tasmin ds.tasmax,
   Event.pdoyCall tas 10,
   Event.pdoyCall tas 90,
   Event.pdoyCall ds.tasmin 10,
   Event.indCall "tx10p" [ds.tasmax, t10] none none "YS",
   Event.insert (lib.tx10p ds.tasmax t10 "YS").name,
   Event.indCall "tx90p" [ds.tasmax, t90] none none "YS",
   Event.insert (lib.tx90p ds.tasmax t90 "YS").name,
   Event.indCall "tn10p" [ds.tasmin, t10] none none "YS",
   Event.insert (lib.tn10p ds.tasmin t10 "YS").name,
   Event.indCall "tn90p" [ds.tasmin, t90] none none "YS",
   Event.insert (lib.tn90p ds.tasmin t90 "YS").name,
   Event.indCall "cold_spell_duration_index" [ds.tasmin, tn10] none (some 1) "YS",
   Event.insert (lib.cold_spell_duration_index ds.tasmin tn10 1 "YS").name,
   Event.write fileOut]

/-- Free syntactic values: terms recording exactly how each series was
built (source variable, daily resample, `xc.indices.tas`, `percentile_doy`,
or an indicator output on one or two series).  Instantiating the pipeline
at this value type makes the dataflow wiring decidable. -/
inductive Expr where
  | sourceVar : String → Expr
  | resampled : Expr → Expr
  | tasOf : Expr → Expr → Expr
  | pdoyOf : Expr → Nat → Expr
  | ind1 : String → Expr → Expr
  | ind2 : String → Expr → Expr → Expr
deriving DecidableEq

/-- The free indicator library over `Expr`: every indicator returns an
array named after the indicator, whose data records the call. -/
def freeLib : XClimLib Expr :=
  { wetdays := fun pr _ _ => { name := "wetdays", data := Expr.ind1 "wetdays" pr }
    maximum_consecutive_dry_days := fun pr _ _ =>
      { name := "maximum_consecutive_dry_days",
        data := Expr.ind1 "maximum_consecutive_dry_days" pr }
    maximum_consecutive_wet_days := fun pr _ _ =>
      { name := "maximum_consecutive_wet_days",
        data := Expr.ind1 "maximum_consecutive_wet_days" pr }
    precip_accumulation := fun pr _ =>
      { name := "precip_accumulation", data := Expr.ind1 "precip_accumulation" pr }
    daily_pr_intensity := fun pr _ _ =>
      { name := "daily_pr_intensity", data := Expr.ind1 "daily_pr_intensity" pr }
    max_1day_precipitation_amount := fun pr _ =>
      { name := "max_1day_precipitation_amount",
        data := Expr.ind1 "max_1day_precipitation_amount" pr }
    max_n_day_precipitation_amount := fun pr _ _ =>
      { name := "max_n_day_precipitation_amount",
        data := Expr.ind1 "max_n_day_precipitation_amount" pr }
    tx_max := fun t _ => { name := "tx_max", data := Expr.ind1 "tx_max" t }
    tn_max := fun t _ => { name := "tn_max", data := Expr.ind1 "tn_max" t }
    tx_min := fun t _ => { name := "tx_min", data := Expr.ind1 "tx_min" t }
    tn_min := fun t _ => { name := "tn_min", data := Expr.ind1 "tn_min" t }
    frost_days := fun t _ => { name := "frost_days", data := Expr.ind1 "frost_days" t }
    ice_days := fun t _ => { name := "ice_days", data := Expr.ind1 "ice_days" t }
    tx_days_above := fun t _ _ =>
      { name := "tx_days_above", data := Expr.ind1 "tx_days_above" t }
    tropical_nights := fun t _ _ =>
      { name := "tropical_nights", data := Expr.ind1 "tropical_nights" t }
    tas := Expr.tasOf
    percentile_doy := Expr.pdoyOf
    tx10p := fun t p _ => { name := "tx10p", data := Expr.ind2 "tx10p" t p }
    tx90p := fun t p _ => { name := "tx90p", data := Expr.ind2 "tx90p" t p }
    tn10p := fun t p _ => { name := "tn10p", data := Expr.ind2 "tn10p" t p }
    tn90p := fun t p _ => { name := "tn90p", data := Expr.ind2 "tn90p" t p }
    cold_spell_duration_index := fun t p _ _ =>
      { name := "cold_spell_duration_index",
        data := Expr.ind2 "cold_spell_duration_index" t p } }

/-- The free environment: a synthetic input dataset providing `pr`,
`tasmax`, `tasmin`, loaded regardless of pattern, with the free library. -/
def freeEnv : Env Expr :=
  { lib := freeLib
    open_mfdataset := fun _ =>
      { attrs := [("title", "synthetic")],
        pr := Expr.sourceVar "pr",
        tasmax := Expr.sourceVar "tasmax",
        tasmin := Expr.sourceVar "tasmin" }
    resample_daily_mean := Expr.resampled }

/-- The daily-resampled `tasmin` series of the free run. -/
def tasminR : Expr := Expr.resampled (Expr.sourceVar "tasmin")

/-- The daily-resampled `tasmax` series of the free run. -/
def tasmaxR : Expr := Expr.resampled (Expr.sourceVar "tasmax")

/-- The derived mean-temperature series `tas` of the free run. -/
def tasE : Expr := Expr.tasOf tasminR tasmaxR

/-- `t10`: the day-of-year 10th percentile of the mean-temperature series. -/
def t10E : Expr := Expr.pdoyOf tasE 10

/-- `t90`: the day-of-year 90th percentile of the mean-temperature series. -/
def t90E : Expr := Expr.pdoyOf tasE 90

/-- `tn10`: the day-of-year 10th percentile of the daily minimum
temperature. -/
def tn10E : Expr := Expr.pdoyOf tasminR 10

/-- Is this event a `percentile_doy` computation? -/
def isPdoyCall {V : Type} : Event V → Bool
  | Event.pdoyCall _ _ => true
  | _ => false

/-- Is this event a derived-intermediate-series computation
(`xc.indices.tas` or `percentile_doy`)? -/
def isDeriveEvent {V : Type} : Event V → Bool
  | Event.tasCall _ _ => true
  | Event.pdoyCall _ _ => true
  | _ => false

/-- Is this event an indicator call with the given name? -/
def isIndCallNamed {V : Type} (s : String) : Event V → Bool
  | Event.indCall ind _ _ _ _ => ind == s
  | _ => false

/-- Is this event an indicator call taking `x` among its data arguments? -/
def isIndCallWithArg {V : Type} [DecidableEq V] (x : V) : Event V → Bool
  | Event.indCall _ args _ _ _ => decide (x ∈ args)
  | _ => false

/-- The trace of the reference free run (folder `/data/`, output file
`/out.nc`). -/
def freeTrace : List (Event Expr) :=
  (do_generate_indices freeEnv "/data/" "/out.nc").2

/-- One entry of the Python `warnings` filter list: an action and the
match test it applies to a warning.  `warnings.filterwarnings('ignore')`
with no further arguments installs an ignore filter matching every
warning. -/
structure WarningFilter where
  action : String
  applies : String → Bool

/-- `warnings.filterwarnings('ignore')`: push an ignore-all filter onto
the current filter list. -/
def filterwarnings_ignore (filters : List WarningFilter) : List WarningFilter :=
  { action := "ignore", applies := fun _ => true } :: filters

/-- Which warnings the `warnings` module surfaces: each warning is handled
by the first filter that matches it, and dropped when that filter's
action is `ignore`. -/
def surfacedWarnings (filters : List WarningFilter) (ws : List String) : List String :=
  ws.filter fun w =>
    match filters.find? (fun fl => fl.applies w) with
    | some fl => !(fl.action == "ignore")
    | none => true

/-- The `__main__` entry of the script: inside `warnings.catch_warnings()`
it installs the ignore-all filter over the ambient filter list and runs
the pipeline.  `ws` are the runtime warnings the computations raise;
the second component is what the run surfaces to the user. -/
def main_entry {V : Type} (env : Env V) (folderSel fileSel : String)
    (ambient : List WarningFilter) (ws : List String) :
    (Except String (OutDataset V) × List (Event V)) × List String :=
  (do_generate_indices env folderSel fileSel,
   surfacedWarnings (filterwarnings_ignore ambient) ws)

/-- Single-star glob semantics of the loader's pattern matching, for the
`stem*.nc` patterns this script builds: the pattern matches a path iff the
path is the stem, then any run of characters containing no path
separator (glob `*` does not cross `/`), then `.nc`. -/
def globStarMatch (stem ext s : List Char) : Prop :=
  ∃ mid : List Char, s = stem ++ mid ++ ext ∧ '/' ∉ mid

set_option maxHeartbeats 2000000 in
/-- A run whose two dialog answers are non-empty succeeds, handing
`successOut` to the writer and producing the flattened event trace. -/
theorem run_success {V : Type} (env : Env V) (folderSel fileSel : String)
    (h1 : folderSel.isEmpty = false) (h2 : fileSel.isEmpty = false) :
    do_generate_indices env folderSel fileSel =
      (Except.ok (successOut env folderSel), successTrace env folderSel fileSel) := by
  unfold do_generate_indices
  rw [h1, h2]
  simp [successOut, successTrace, dsDaily, loadedDs, seedOut, applyAll, indicatorResults]

theorem setVar_attrs {V : Type} (ds : OutDataset V) (da : DataArray V) :
    (ds.setVar da).attrs = ds.attrs := rfl

theorem applyAll_cons {V : Type} (ds : OutDataset V) (da : DataArray V)
    (l : List (DataArray V)) : applyAll ds (da :: l) = applyAll (ds.setVar da) l := rfl

theorem applyAll_attrs {V : Type} (l : List (DataArray V)) (ds : OutDataset V) :
    (applyAll ds l).attrs = ds.attrs := by
  induction l generalizing ds with
  | nil => rfl
  | cons da tl ih => exact ih (ds.setVar da)

theorem applyAll_vars_notMem {V : Type} (l : List (DataArray V)) (ds : OutDataset V)
    (m : String) (h : m ∉ l.map DataArray.name) :
    (applyAll ds l).vars m = ds.vars m := by
  induction l generalizing ds with
  | nil => rfl
  | cons da tl ih =>
    simp only [List.map_cons, List.mem_cons, not_or] at h
    rw [applyAll, List.foldl_cons, ← applyAll, ih (ds.setVar da) h.2]
    simp [OutDataset.setVar, h.1]

theorem applyAll_isSome_iff {V : Type} (l : List (DataArray V)) (ds : OutDataset V)
    (m : String) :
    ((applyAll ds l).vars m).isSome = true ↔
      m ∈ l.map DataArray.name ∨ (ds.vars m).isSome = true := by
  induction l generalizing ds with
  | nil => simp [applyAll]
  | cons da tl ih =>
    rw [applyAll, List.foldl_cons, ← applyAll, ih (ds.setVar da)]
    by_cases hm : m = da.name
    · simp [OutDataset.setVar, hm]
    · simp [OutDataset.setVar, hm]

theorem applyAll_vars_mem_nodup {V : Type} (l : List (DataArray V)) (ds : OutDataset V)
    (hnd : (l.map DataArray.name).Nodup) (da : DataArray V) (hda : da ∈ l) :
    (applyAll ds l).vars da.name = some da.data := by
  induction l generalizing ds with
  | nil => cases hda
  | cons hd tl ih =>
    simp only [List.map_cons, List.nodup_cons] at hnd
    rcases List.mem_cons.mp hda with h | h
    · subst h
      rw [applyAll_cons, applyAll_vars_notMem tl (ds.setVar da) da.name hnd.1]
      simp [OutDataset.setVar]
    · rw [applyAll_cons]
      exact ih (ds.setVar hd) hnd.2 h

theorem setVar_comm {V : Type} (ds : OutDataset V) (a b : DataArray V)
    (h : a.name ≠ b.name) :
    (ds.setVar a).setVar b = (ds.setVar b).setVar a := by
  have hv : ∀ m, ((ds.setVar a).setVar b).vars m = ((ds.setVar b).setVar a).vars m := by
    intro m
    simp only [OutDataset.setVar]
    by_cases hb : m = b.name
    · subst hb
      simp [Ne.symm h]
    · by_cases ha : m = a.name
      · subst ha
        simp [h, hb]
      · simp [ha, hb]
  cases ds
  simp only [OutDataset.setVar, OutDataset.mk.injEq, true_and]
  exact funext hv

/-- Inserting a permutation of a duplicate-name-free result list produces
the same output dataset. -/
theorem applyAll_perm {V : Type} {l₁ l₂ : List (DataArray V)} (h : l₁.Perm l₂)
    (ds : OutDataset V) (hnd : (l₁.map DataArray.name).Nodup) :
    applyAll ds l₁ = applyAll ds l₂ := by
  induction h generalizing ds with
  | nil => rfl
  | cons x h ih =>
    rw [applyAll_cons, applyAll_cons]
    simp only [List.map_cons, List.nodup_cons] at hnd
    exact ih (ds.setVar x) hnd.2
  | swap x y l =>
    rw [applyAll_cons, applyAll_cons, applyAll_cons, applyAll_cons]
    have hxy : y.name ≠ x.name := by
      simp only [List.map_cons, List.nodup_cons, List.mem_cons] at hnd
      exact fun hc => hnd.1 (Or.inl hc)
    rw [setVar_comm ds y x hxy]
  | trans h₁ h₂ ih₁ ih₂ =>
    rw [ih₁ ds hnd, ih₂ ds (((h₁.map DataArray.name).nodup_iff).mp hnd)]

/-- C1: a successful run (both dialog answers non-empty, result names
pairwise distinct as xclim's canonical names are) hands the writer an
output container holding exactly the twenty result variable names, one
per indicator call, each attached under the name carried by the
indicator's result array, and no others. -/
theorem c1_output_variable_names {V : Type} (env : Env V) (folderSel fileSel : String)
    (h1 : folderSel.isEmpty = false) (h2 : fileSel.isEmpty = false)
    (hnd : (resultNames env.lib (dsDaily env folderSel)).Nodup) :
    (do_generate_indices env folderSel fileSel).1 = Except.ok (successOut env folderSel) ∧
    (resultNames env.lib (dsDaily env folderSel)).length = 20 ∧
    (∀ m, ((successOut env folderSel).vars m).isSome = true ↔
        m ∈ resultNames env.lib (dsDaily env folderSel)) ∧
    (∀ da ∈ indicatorResults env.lib (dsDaily env folderSel),
        (successOut env folderSel).vars da.name = some da.data) := by
  refine ⟨by rw [run_success env folderSel fileSel h1 h2], rfl, ?_, ?_⟩
  · intro m
    rw [successOut, applyAll_isSome_iff]
    simp [seedOut, resultNames]
  · intro da hda
    exact applyAll_vars_mem_nodup _ _ hnd da hda

/-- C1 witness: the free run on folder `/data/` and file `/out.nc`. -/
theorem c1_output_variable_names_witness :
    (do_generate_indices freeEnv "/data/" "/out.nc").1 =
        Except.ok (successOut freeEnv "/data/") ∧
    (resultNames freeEnv.lib (dsDaily freeEnv "/data/")).length = 20 ∧
    (∀ m, ((successOut freeEnv "/data/").vars m).isSome = true ↔
        m ∈ resultNames freeEnv.lib (dsDaily freeEnv "/data/")) ∧
    (∀ da ∈ indicatorResults freeEnv.lib (dsDaily freeEnv "/data/"),
        (successOut freeEnv "/data/").vars da.name = some da.data) :=
  c1_output_variable_names freeEnv "/data/" "/out.nc" (by decide) (by decide) (by decide)

/-- C3: if either file dialog is cancelled (returns an empty/falsy value),
the run raises the user-abort error immediately: the trace is empty, so
nothing is loaded, no indicator is computed, and no output file is
written. -/
theorem c3_dialog_abort {V : Type} (env : Env V) (folderSel fileSel : String)
    (h : folderSel.isEmpty = true ∨ fileSel.isEmpty = true) :
    (∃ msg, (do_generate_indices env folderSel fileSel).1 = Except.error msg) ∧
    (do_generate_indices env folderSel fileSel).2 = [] ∧
    (∀ p, Event.load p ∉ (do_generate_indices env folderSel fileSel).2) ∧
    (∀ ind args th w fr,
      Event.indCall ind args th w fr ∉ (do_generate_indices env folderSel fileSel).2) ∧
    (∀ p, Event.write p ∉ (do_generate_indices env folderSel fileSel).2) := by
  have key : do_generate_indices env folderSel fileSel =
      (Except.error "Folder selection aborted", []) ∨
      do_generate_indices env folderSel fileSel =
      (Except.error "Save file selection aborted", []) := by
    cases hf : folderSel.isEmpty with
    | true =>
      left
      unfold do_generate_indices
      rw [hf]
      rfl
    | false =>
      right
      rcases h with h | h
      · rw [hf] at h; cases h
      · unfold do_generate_indices
        rw [hf, h]
        rfl
  rcases key with k | k <;>
    exact ⟨⟨_, by rw [k]⟩, by rw [k], fun p => by rw [k]; simp,
      fun ind args th w fr => by rw [k]; simp, fun p => by rw [k]; simp⟩

/-- C3 witness: cancelling the folder dialog on the free environment. -/
theorem c3_dialog_abort_witness :
    (∃ msg, (do_generate_indices freeEnv "" "/out.nc").1 = Except.error msg) ∧
    (do_generate_indices freeEnv "" "/out.nc").2 = [] :=
  have h := c3_dialog_abort freeEnv "" "/out.nc" (Or.inl (by decide))
  ⟨h.1, h.2.1⟩

/-- C4: the output dataset's global attributes equal those of the loaded
and daily-resampled input dataset (which the resample preserves), and no
indicator insertion ever changes an output dataset's attributes. -/
theorem c4_global_attributes {V : Type} (env : Env V) (folderSel fileSel : String)
    (h1 : folderSel.isEmpty = false) (h2 : fileSel.isEmpty = false) :
    (do_generate_indices env folderSel fileSel).1 = Except.ok (successOut env folderSel) ∧
    (successOut env folderSel).attrs = (dsDaily env folderSel).attrs ∧
    (dsDaily env folderSel).attrs = (loadedDs env folderSel).attrs ∧
    (∀ (ds : OutDataset V) (da : DataArray V), (ds.setVar da).attrs = ds.attrs) := by
  refine ⟨by rw [run_success env folderSel fileSel h1 h2], ?_, rfl, fun ds da => rfl⟩
  rw [successOut, applyAll_attrs]
  rfl

/-- C4 witness: the free run on folder `/data/` and file `/out.nc`. -/
theorem c4_global_attributes_witness :
    (do_generate_indices freeEnv "/data/" "/out.nc").1 =
        Except.ok (successOut freeEnv "/data/") ∧
    (successOut freeEnv "/data/").attrs = (dsDaily freeEnv "/data/").attrs ∧
    (dsDaily freeEnv "/data/").attrs = (loadedDs freeEnv "/data/").attrs ∧
    (∀ (ds : OutDataset Expr) (da : DataArray Expr), (ds.setVar da).attrs = ds.attrs) :=
  c4_global_attributes freeEnv "/data/" "/out.nc" (by decide) (by decide)

/-- C5: the pipeline is deterministic: two runs given the same external
environment (same input files, same library), the same folder answer and
the same file answer produce identical outcomes and traces — the embedded
pipeline is a pure function of its inputs. -/
theorem c5_deterministic {V : Type} (env₁ env₂ : Env V) (f₁ f₂ g₁ g₂ : String)
    (henv : env₁ = env₂) (hf : f₁ = f₂) (hg : g₁ = g₂) :
    do_generate_indices env₁ f₁ g₁ = do_generate_indices env₂ f₂ g₂ := by
  subst henv hf hg
  rfl

/-- C5 witness: two identical free runs agree. -/
theorem c5_deterministic_witness :
    do_generate_indices freeEnv "/data/" "/out.nc" =
      do_generate_indices freeEnv "/data/" "/out.nc" :=
  c5_deterministic freeEnv freeEnv "/data/" "/data/" "/out.nc" "/out.nc" rfl rfl rfl

/-- C6: each indicator call is side-effect-free except for inserting its
own named result: inserting any permutation of the twenty results (the
derived series being fixed inputs computed beforehand) into the seeded
output container yields exactly the container the program order yields. -/
theorem c6_insertion_order_irrelevant {V : Type} (env : Env V) (folderSel fileSel : String)
    (h1 : folderSel.isEmpty = false) (h2 : fileSel.isEmpty = false)
    (l : List (DataArray V))
    (hperm : l.Perm (indicatorResults env.lib (dsDaily env folderSel)))
    (hnd : (resultNames env.lib (dsDaily env folderSel)).Nodup) :
    applyAll (seedOut (dsDaily env folderSel).attrs) l = successOut env folderSel ∧
    (do_generate_indices env folderSel fileSel).1 = Except.ok (successOut env folderSel) := by
  constructor
  · rw [successOut]
    exact applyAll_perm hperm _ ((hperm.map DataArray.name).nodup_iff.mpr hnd)
  · rw [run_success env folderSel fileSel h1 h2]

/-- C6 witness: inserting the twenty free-run results in reverse order. -/
theorem c6_insertion_order_irrelevant_witness :
    applyAll (seedOut (dsDaily freeEnv "/data/").attrs)
        (indicatorResults freeEnv.lib (dsDaily freeEnv "/data/")).reverse =
      successOut freeEnv "/data/" ∧
    (do_generate_indices freeEnv "/data/" "/out.nc").1 =
      Except.ok (successOut freeEnv "/data/") :=
  c6_insertion_order_irrelevant freeEnv "/data/" "/out.nc" (by decide) (by decide)
    (indicatorResults freeEnv.lib (dsDaily freeEnv "/data/")).reverse
    (List.reverse_perm _) (by decide)

/-- C7: the `__main__` entry runs the pipeline under
`warnings.filterwarnings('ignore')`, so every runtime warning raised
during the computations is suppressed and none is surfaced, whatever the
ambient filters and whatever warnings arise. -/
theorem c7_warnings_suppressed {V : Type} (env : Env V) (folderSel fileSel : String)
    (ambient : List WarningFilter) (ws : List String) :
    (main_entry env folderSel fileSel ambient ws).2 = [] := by
  show surfacedWarnings (filterwarnings_ignore ambient) ws = []
  unfold surfacedWarnings
  induction ws with
  | nil => rfl
  | cons w tl ih => exact ih

/-- C8: the glob pattern handed to the loader is the folder answer with
`*.nc` appended verbatim, no separator inserted; hence for a folder
answer not ending in a separator, no file inside that folder (a path
with a `/` after the folder part) matches the pattern. -/
theorem c8_glob_pattern {V : Type} (env : Env V) (folderSel fileSel : String)
    (h1 : folderSel.isEmpty = false) (h2 : fileSel.isEmpty = false)
    (_hsep : folderSel.data.getLast? ≠ some '/') :
    Event.load (folderSel ++ "*.nc") ∈ (do_generate_indices env folderSel fileSel).2 ∧
    ∀ n : List Char, ¬ globStarMatch folderSel.data (['.', 'n', 'c'])
        (folderSel.data ++ '/' :: (n ++ ['.', 'n', 'c'])) := by
  constructor
  · rw [run_success env folderSel fileSel h1 h2]
    exact List.mem_cons_self _ _
  · rintro n ⟨mid, heq, hmem⟩
    rw [List.append_assoc] at heq
    have hc : '/' :: (n ++ ['.', 'n', 'c']) = mid ++ ['.', 'n', 'c'] :=
      List.append_cancel_left heq
    have hm : ('/' :: n) ++ ['.', 'n', 'c'] = mid ++ ['.', 'n', 'c'] := hc
    have : '/' :: n = mid := List.append_cancel_right hm
    exact hmem (this ▸ List.mem_cons_self '/' n)

/-- C8 witness: folder answer `/data` (no trailing separator) and the
file `/data/x.nc` inside it. -/
theorem c8_glob_pattern_witness :
    Event.load ("/data" ++ "*.nc") ∈ (do_generate_indices freeEnv "/data" "/out.nc").2 ∧
    ¬ globStarMatch ("/data").data (['.', 'n', 'c'])
        (("/data").data ++ '/' :: (['x'] ++ ['.', 'n', 'c'])) :=
  have h := c8_glob_pattern freeEnv "/data" "/out.nc" (by decide) (by decide) (by decide)
  ⟨h.1, h.2 ['x']⟩

/-- C2, counterexample: the claim says the run derives exactly two
day-of-year percentile series, but the free run computes three
`percentile_doy` series (10th and 90th of the mean-temperature series,
and a separate 10th of daily minimum temperature). -/
theorem c2_two_percentile_series_cex :
    freeTrace.countP isPdoyCall = 3 ∧ ¬ freeTrace.countP isPdoyCall = 2 := by
  constructor
  · decide
  · decide

/-- C2, amended: the derived intermediate series are one mean-temperature
series and three day-of-year percentile series, each computed once; the
two mean-temperature percentile series are reused by exactly four later
indicator calls, and the daily-minimum 10th-percentile series by exactly
one. -/
theorem c2_intermediate_series :
    freeTrace.filter isDeriveEvent =
      [Event.tasCall tasminR tasmaxR, Event.pdoyCall tasE 10,
       Event.pdoyCall tasE 90, Event.pdoyCall tasminR 10] ∧
    freeTrace.countP (fun e => isIndCallWithArg t10E e || isIndCallWithArg t90E e) = 4 ∧
    freeTrace.countP (isIndCallWithArg tn10E) = 1 := by
  refine ⟨?_, ?_, ?_⟩
  · decide
  · decide
  · decide

/-- C9: TN10p is invoked with the 10th-percentile series of the derived
mean-temperature series — the same threshold series TX10p receives — not
with the 10th-percentile series of daily minimum temperature; that
separately computed series is passed only to the cold-spell-duration
call. -/
theorem c9_tn10p_threshold_series :
    freeTrace.filter (isIndCallNamed "tn10p") =
      [Event.indCall "tn10p" [tasminR, t10E] none none "YS"] ∧
    freeTrace.filter (isIndCallNamed "tx10p") =
      [Event.indCall "tx10p" [tasmaxR, t10E] none none "YS"] ∧
    freeTrace.filter (isIndCallWithArg tn10E) =
      [Event.indCall "cold_spell_duration_index" [tasminR, tn10E] none (some 1) "YS"] := by
  refine ⟨?_, ?_, ?_⟩
  · decide
  · decide
  · decide

/-- C10: the cold-spell-duration indicator is called with window length 1
(not the 6 days its accompanying comment describes) and annual frequency,
and no warm-spell (WSDI) indicator is ever computed or inserted into the
output container. -/
theorem c10_csdi_window_no_wsdi :
    freeTrace.filter (isIndCallNamed "cold_spell_duration_index") =
      [Event.indCall "cold_spell_duration_index" [tasminR, tn10E] none (some 1) "YS"] ∧
    freeTrace.countP (isIndCallNamed "warm_spell_duration_index") = 0 ∧
    (successOut freeEnv "/data/").vars "warm_spell_duration_index" = none ∧
    (successOut freeEnv "/data/").vars "wsdi" = none := by
  refine ⟨?_, ?_, ?_, ?_⟩
  · decide
  · decide
  · decide
  · decide

end XclimIndices
